import Mathlib

/-!
Shallow embedding of the ticketing backend (src/main.py, src/db.py) for
specification checking.  Machine rows become Lean structures, the backing
store becomes a list of rows in insertion order, SQL statements become
explicit list transformations, and fallible steps return Option or Except.
The Python json module is external to the repository; it is modelled by a
small executable parser over the JSON fragment that the screenshot column
can hold (null, booleans, integers, strings, arrays).  A parse result of
none models a raised ValueError.
-/

namespace Ticketing

/-- JSON values, as produced by the json module on the screenshot column. -/
inductive JVal where
  | null : JVal
  | bool : Bool → JVal
  | num : Int → JVal
  | str : String → JVal
  | arr : List JVal → JVal

mutual

/-- Boolean equality on JSON values. -/
def JVal.beq : JVal → JVal → Bool
  | .null, .null => true
  | .bool a, .bool b => a == b
  | .num a, .num b => a == b
  | .str a, .str b => a == b
  | .arr a, .arr b => JVal.beqList a b
  | _, _ => false

/-- Boolean equality on lists of JSON values. -/
def JVal.beqList : List JVal → List JVal → Bool
  | [], [] => true
  | x :: xs, y :: ys => JVal.beq x y && JVal.beqList xs ys
  | _, _ => false

end

/-- The double-quote character. -/
def quoteChar : Char := Char.ofNat 34

/-- The backslash character. -/
def backslashChar : Char := Char.ofNat 92

/-- Whitespace recognised by the JSON parser and by Python strip. -/
def isSpaceChar (c : Char) : Bool :=
  c = ' ' || c = Char.ofNat 9 || c = Char.ofNat 10 || c = Char.ofNat 13

/-- Drop leading JSON whitespace. -/
def skipWs : List Char → List Char
  | [] => []
  | c :: cs => if isSpaceChar c then skipWs cs else c :: cs

/-- Translate an escaped character inside a JSON string literal. -/
def escChar (c : Char) : Char :=
  if c = 'n' then Char.ofNat 10
  else if c = 't' then Char.ofNat 9
  else if c = 'r' then Char.ofNat 13
  else c

/-- Parse the body of a JSON string literal, after the opening quote.
Returns the decoded characters and the remaining input. -/
def parseStrChars : List Char → Option (List Char × List Char)
  | [] => none
  | c :: cs =>
    if c = quoteChar then some ([], cs)
    else if c = backslashChar then
      match cs with
      | [] => none
      | e :: cs₂ =>
        match parseStrChars cs₂ with
        | some (acc, rest) => some (escChar e :: acc, rest)
        | none => none
    else
      match parseStrChars cs with
      | some (acc, rest) => some (c :: acc, rest)
      | none => none

/-- Parse a nonempty run of decimal digits. -/
def parseDigits : List Char → Option (Nat × List Char)
  | [] => none
  | c :: cs =>
    if c.isDigit then
      match parseDigits cs with
      | some (n, rest) => some ((c.toNat - 48) * 10 ^ (numDigits cs) + n, rest)
      | none => some (c.toNat - 48, cs)
    else none
where
  /-- Length of the leading digit run, used for place value. -/
  numDigits : List Char → Nat
    | [] => 0
    | c :: cs => if c.isDigit then numDigits cs + 1 else 0

mutual

/-- Parse one JSON value; fuel bounds the recursion depth. -/
def parseVal : Nat → List Char → Option (JVal × List Char)
  | 0, _ => none
  | fuel + 1, cs =>
    match skipWs cs with
    | 'n' :: 'u' :: 'l' :: 'l' :: rest => some (.null, rest)
    | 't' :: 'r' :: 'u' :: 'e' :: rest => some (.bool true, rest)
    | 'f' :: 'a' :: 'l' :: 's' :: 'e' :: rest => some (.bool false, rest)
    | '-' :: rest =>
      match parseDigits rest with
      | some (n, rest₂) => some (.num (-(n : Int)), rest₂)
      | none => none
    | c :: rest =>
      if c = quoteChar then
        match parseStrChars rest with
        | some (acc, rest₂) => some (.str (String.mk acc), rest₂)
        | none => none
      else if c = '[' then
        match parseArrItems fuel rest with
        | some (xs, rest₂) => some (.arr xs, rest₂)
        | none => none
      else
        match parseDigits (c :: rest) with
        | some (n, rest₂) => some (.num (n : Int), rest₂)
        | none => none
    | [] => none

/-- Parse the items of a JSON array, after the opening bracket. -/
def parseArrItems : Nat → List Char → Option (List JVal × List Char)
  | 0, _ => none
  | fuel + 1, cs =>
    match skipWs cs with
    | ']' :: rest => some ([], rest)
    | cs₂ =>
      match parseVal fuel cs₂ with
      | none => none
      | some (v, r) =>
        match skipWs r with
        | ',' :: r₂ =>
          match parseArrItems fuel r₂ with
          | some (xs, r₃) => some (v :: xs, r₃)
          | none => none
        | ']' :: r₂ => some ([v], r₂)
        | _ => none

end

/-- Model of json.loads on the screenshot column: parse one value and
require only trailing whitespace; none models a raised ValueError. -/
def jsonParse (s : String) : Option JVal :=
  match parseVal (s.length + 1) s.data with
  | some (v, rest) => if (skipWs rest).isEmpty then some v else none
  | none => none

/-- Model of the Python str.strip method: drop whitespace at both ends. -/
def pyStrip (s : String) : String :=
  String.mk (((s.data.dropWhile isSpaceChar).reverse.dropWhile isSpaceChar).reverse)

/-- A row of the users table (the columns the backend reads). -/
structure User where
  first_name : String
  last_name : String
  email : String
  company : String
  role : String
  deriving DecidableEq

/-- A row of the tickets table.  Timestamps are integers (epoch instants);
the screenshot column stores the raw serialized collection, nullable. -/
structure Ticket where
  id : Nat
  title : String
  description : String
  submitted_by : String
  cc_email : Option String
  status : String
  priority : String
  location : Option String
  assigned_to : Option String
  created_at : Int
  updated_at : Int
  archived : Bool
  screenshot : Option String
  deriving DecidableEq

/-- A row of the tasks table. -/
structure Task where
  id : Nat
  text : String
  completed : Bool
  priority : String
  assigned_to : Option String
  screenshot_url : Option String
  user_email : String
  created_at : Int
  updated_at : Int
  deriving DecidableEq

/-- The TicketUpdate request model: every field optional, defaulting to
null, exactly as the pydantic model in main.py. -/
structure TicketUpdate where
  title : Option String := none
  description : Option String := none
  status : Option String := none
  priority : Option String := none
  updated_at : Option Int := none
  assigned_to : Option String := none
  archived : Option Bool := none
  deriving DecidableEq

/-- SELECT ... WHERE id = s with fetchone: the first row with this id. -/
def findTicket (store : List Ticket) (ticket_id : Nat) : Option Ticket :=
  store.find? (fun t => t.id = ticket_id)

/-- UPDATE ... WHERE id = s: rewrite every row carrying this id. -/
def updateStore (store : List Ticket) (ticket_id : Nat) (f : Ticket → Ticket) :
    List Ticket :=
  store.map (fun t => if t.id = ticket_id then f t else t)

/-- Whether the change set has at least one non-null field, i.e. whether
the filtered update_data dictionary in patch_ticket is nonempty. -/
def hasApplicable (c : TicketUpdate) : Bool :=
  c.title.isSome || c.description.isSome || c.status.isSome ||
    c.priority.isSome || c.updated_at.isSome || c.assigned_to.isSome ||
    c.archived.isSome

/-- Effect of the dynamic UPDATE statement built by patch_ticket: each
non-null field of the change set overwrites its column and updated_at is
set to now.  Only invoked when the change set is applicable and does not
itself assign updated_at (see patch_ticket). -/
def applyChanges (t : Ticket) (c : TicketUpdate) (now : Int) : Ticket :=
  { t with
    title := c.title.getD t.title
    description := c.description.getD t.description
    status := c.status.getD t.status
    priority := c.priority.getD t.priority
    assigned_to := match c.assigned_to with
      | some v => some v
      | none => t.assigned_to
    archived := c.archived.getD t.archived
    updated_at := now }

/-- Failures of the patch route: a missing row maps to HTTP 404; a change
set that explicitly assigns updated_at makes the generated SQL contain the
column updated_at twice, which the database rejects (a server error). -/
inductive PatchError where
  | notFound : PatchError
  | sqlError : PatchError
  deriving DecidableEq

/-- What the patch route produces: the new store, the re-read row, its
projected screenshots and display name, and the notification recipient
scheduled by the status check (none when no email is scheduled). -/
structure PatchOutcome where
  store : List Ticket
  result : Ticket
  screenshots : List JVal
  submitted_by_name : String
  notified : Option String

/-- Screenshot decoding on the list_tickets path: falsy raw gives [],
a parsed list is used as is, any other parsed value is wrapped, and a
parse failure falls back to the raw string wrapped in a list. -/
def listScreenshots (raw : Option String) : List JVal :=
  match raw with
  | none => []
  | some s =>
    if s = "" then []
    else
      match jsonParse s with
      | some (.arr xs) => xs
      | some v => [v]
      | none => [JVal.str s]

/-- Screenshot decoding on the patch_ticket path: falsy raw is replaced
by the empty-array literal, a parsed list is used as is, any other parsed
value is wrapped, and a parse failure gives []. -/
def patchScreenshots (raw : Option String) : List JVal :=
  let s := match raw with
    | none => "[]"
    | some s => if s = "" then "[]" else s
  match jsonParse s with
  | some (.arr xs) => xs
  | some v => [v]
  | none => []

/-- Screenshot decoding on the get_ticket path: falsy raw is replaced by
the empty-array literal and the parse result is used unwrapped; a parse
failure (none) models the uncaught ValueError raised by json.loads. -/
def getScreenshots (raw : Option String) : Option JVal :=
  let s := match raw with
    | none => "[]"
    | some s => if s = "" then "[]" else s
  jsonParse s

/-- Display name on the list_tickets path: the LEFT JOIN yields the user
row whose email equals submitted_by when one exists; missing names become
the empty string and the concatenation is stripped. -/
def listSubmittedByName (users : List User) (t : Ticket) : String :=
  let u := users.find? (fun u => u.email = t.submitted_by)
  let first := match u with | some u => u.first_name | none => ""
  let last := match u with | some u => u.last_name | none => ""
  pyStrip (first ++ " " ++ last)

/-- Display name on the get_ticket and patch_ticket paths: the raw
submitted_by email, with no user lookup at all. -/
def rawSubmittedByName (t : Ticket) : String :=
  t.submitted_by

/-- The patch_ticket route (final revision in main.py): fetch the row or
404; filter null fields out of the change set; when any field remains run
the dynamic UPDATE (stamping updated_at = now); re-read the row; project
the display name and screenshots; schedule a notification to submitted_by
exactly when the re-read status is Resolved or Closed. -/
def patch_ticket (store : List Ticket) (ticket_id : Nat) (changes : TicketUpdate)
    (now : Int) : Except PatchError PatchOutcome :=
  match findTicket store ticket_id with
  | none => .error .notFound
  | some _ =>
    if changes.updated_at.isSome then .error .sqlError
    else
      let store₂ :=
        if hasApplicable changes then
          updateStore store ticket_id (fun t => applyChanges t changes now)
        else store
      match findTicket store₂ ticket_id with
      | none => .error .notFound
      | some t₂ =>
        .ok {
          store := store₂
          result := t₂
          screenshots := patchScreenshots t₂.screenshot
          submitted_by_name := rawSubmittedByName t₂
          notified :=
            if t₂.status = "Resolved" || t₂.status = "Closed" then
              some t₂.submitted_by
            else none }

/-- Failures of the get_ticket route: a missing row maps to HTTP 404 and
an uncaught ValueError from json.loads maps to a server error. -/
inductive GetError where
  | notFound : GetError
  | decodeError : GetError
  deriving DecidableEq

/-- The get_ticket route: fetch the row or 404, project the display name
(raw email) and the screenshot value, unwrapped; a parse failure
propagates as the uncaught ValueError. -/
def get_ticket (store : List Ticket) (ticket_id : Nat) :
    Except GetError (Ticket × String × JVal) :=
  match findTicket store ticket_id with
  | none => .error .notFound
  | some t =>
    match getScreenshots t.screenshot with
    | none => .error .decodeError
    | some v => .ok (t, rawSubmittedByName t, v)

/-- The create_task route: normalize a falsy assigned_to to null, compute
now once, and insert the row with created_at = updated_at = now. -/
def create_task (task_id : Nat) (text : String) (completed : Bool)
    (priority : String) (assigned_to : Option String)
    (screenshot_url : Option String) (user_email : String) (now : Int) : Task :=
  let assigned := match assigned_to with
    | none => none
    | some s => if s = "" then none else some s
  { id := task_id
    text := text
    completed := completed
    priority := priority
    assigned_to := assigned
    screenshot_url := screenshot_url
    user_email := user_email
    created_at := now
    updated_at := now }

/-- Modelled from the spec: the POST /tickets creation route is not
present under src (only its collaborators are); section 4.3 says it
stamps created_at = updated_at = now() with a single timestamp reused for
both, and persists zero attachments as an empty list, never null. -/
def create_ticket_spec (ticket_id : Nat) (title description submitted_by : String)
    (cc_email : Option String) (status priority : String)
    (location : Option String) (screenshot : Option String) (now : Int) : Ticket :=
  { id := ticket_id
    title := title
    description := description
    submitted_by := submitted_by
    cc_email := cc_email
    status := status
    priority := priority
    location := location
    assigned_to := none
    created_at := now
    updated_at := now
    archived := false
    screenshot := some (screenshot.getD "[]") }

/-- SELECT ... WHERE id = s on the tasks table with fetchone. -/
def findTask (store : List Task) (task_id : Nat) : Option Task :=
  store.find? (fun t => t.id = task_id)

/-- The PUT /tasks/id/completed route: UPDATE completed and updated_at
in one statement, RETURNING the row; no row gives 404. -/
def set_task_completed (store : List Task) (task_id : Nat) (completed : Bool)
    (now : Int) : Except PatchError (List Task × Task) :=
  match findTask store task_id with
  | none => .error .notFound
  | some t =>
    (.ok (store.map (fun u => if u.id = task_id then
        { u with completed := completed, updated_at := now } else u),
      { t with completed := completed, updated_at := now }))

/-- The DELETE /tasks/id route: run the DELETE unconditionally and
always answer 204; there is no existence check. -/
def delete_task (store : List Task) (task_id : Nat) : List Task × Nat :=
  (store.filter (fun t => ¬ t.id = task_id), 204)

/-- Effect of archive_ticket_in_db on one row: archived becomes true and
status becomes the literal Canceled; nothing else is assigned. -/
def archiveApply (t : Ticket) : Ticket :=
  { t with archived := true, status := "Canceled" }

/-- archive_ticket_in_db (src/db.py): UPDATE every row with this id and
report whether any row was hit (rowcount > 0). -/
def archive_ticket_in_db (store : List Ticket) (ticket_id : Nat) :
    List Ticket × Bool :=
  (store.map (fun t => if t.id = ticket_id then archiveApply t else t),
   store.any (fun t => t.id = ticket_id))

/-- The POST /tickets/id/cancel route: archive or 404; the notification
attempt afterwards never alters the store. -/
def cancel_ticket (store : List Ticket) (ticket_id : Nat) :
    Except PatchError (List Ticket) :=
  let (store₂, updated) := archive_ticket_in_db store ticket_id
  if updated then .ok store₂ else .error .notFound

/-- The WHERE clause of list_tickets: archived must equal the selector,
and a truthy user_email narrows to exact submitted_by matches (Python
treats an empty string as absent). -/
def ticketMatches (user_email : Option String) (archived : Bool)
    (t : Ticket) : Bool :=
  t.archived = archived &&
    (match user_email with
     | none => true
     | some e => if e = "" then true else t.submitted_by = e)

/-- Insertion step of one concrete sort used below as an existence
witness for the ordering contract; it places a row before the first row
not strictly newer.  Nothing in the SQL singles out this placement. -/
def insertDesc (t : Ticket) : List Ticket → List Ticket
  | [] => [t]
  | x :: xs =>
    if x.created_at ≤ t.created_at then t :: x :: xs
    else x :: insertDesc t xs

/-- One concrete sort of the table by created_at descending.  This is
only one admissible way the database may return the rows: ORDER BY
created_at DESC carries no secondary key, and the database leaves the
relative order of rows with equal created_at unspecified, so no
particular tie order can be read off the query. -/
def sortDesc : List Ticket → List Ticket
  | [] => []
  | x :: xs => insertDesc x (sortDesc xs)

/-- One admissible execution of the list_tickets query: filter by the
WHERE clause, then one sort by created_at descending.  The guarantee the
query itself provides is only listTicketsAdmissible below. -/
def list_tickets (store : List Ticket) (user_email : Option String)
    (archived : Bool) : List Ticket :=
  sortDesc (store.filter (ticketMatches user_email archived))

/-- The contract of SELECT ... WHERE ... ORDER BY created_at DESC: the
database returns some permutation of the rows selected by the WHERE
clause that is pairwise nonincreasing in created_at.  With no secondary
sort key the relative order of rows with equal created_at is left
unspecified, so every such permutation is an admissible result of the
query. -/
def listTicketsAdmissible (store : List Ticket) (user_email : Option String)
    (archived : Bool) (out : List Ticket) : Prop :=
  out.Perm (store.filter (ticketMatches user_email archived)) ∧
    out.Pairwise (fun a b => b.created_at ≤ a.created_at)

/-- A concrete ticket row used to evaluate the theorems. -/
def sampleTicket : Ticket :=
  { id := 1
    title := "Printer down"
    description := "Paper jam in tray 2"
    submitted_by := "amy@msi.com"
    cc_email := none
    status := "Open"
    priority := "Medium"
    location := none
    assigned_to := none
    created_at := 3
    updated_at := 5
    archived := false
    screenshot := none }

/-- A concrete task row used to evaluate the theorems. -/
def sampleTask : Task :=
  { id := 7
    text := "Restock toner"
    completed := false
    priority := "Low"
    assigned_to := none
    screenshot_url := none
    user_email := "bob@msi.com"
    created_at := 2
    updated_at := 4 }

/-- A concrete user row used to evaluate the theorems. -/
def sampleUser : User :=
  { first_name := "Zed"
    last_name := "Quill"
    email := "zed@msi.com"
    company := "MSI"
    role := "User" }

/-! ### Helper lemmas -/

theorem findTicket_updateStore (store : List Ticket) (i : Nat) (f : Ticket → Ticket)
    (hf : ∀ t, (f t).id = t.id) :
    findTicket (updateStore store i f) i = (findTicket store i).map f := by
  induction store with
  | nil => rfl
  | cons x xs ih =>
    by_cases hx : x.id = i
    · simp [findTicket, updateStore, List.find?_cons, hx, hf]
    · simp [findTicket, updateStore, List.find?_cons, hx] at ih ⊢
      exact ih

theorem opt_none_of_isSome_false {α : Type} {o : Option α}
    (h : o.isSome = false) : o = none := by
  cases o
  · rfl
  · simp at h

theorem hasApplicable_false_parts {c : TicketUpdate} (h : hasApplicable c = false) :
    c.title = none ∧ c.description = none ∧ c.status = none ∧ c.priority = none ∧
      c.updated_at = none ∧ c.assigned_to = none ∧ c.archived = none := by
  simp only [hasApplicable, Bool.or_eq_false_iff] at h
  exact ⟨opt_none_of_isSome_false h.1.1.1.1.1.1,
    opt_none_of_isSome_false h.1.1.1.1.1.2,
    opt_none_of_isSome_false h.1.1.1.1.2,
    opt_none_of_isSome_false h.1.1.1.2,
    opt_none_of_isSome_false h.1.1.2,
    opt_none_of_isSome_false h.1.2,
    opt_none_of_isSome_false h.2⟩

theorem patch_ticket_updated_at_none {store : List Ticket} {i : Nat}
    {ch : TicketUpdate} {now : Int} {o : PatchOutcome}
    (h : patch_ticket store i ch now = .ok o) : ch.updated_at = none := by
  unfold patch_ticket at h
  cases hf : findTicket store i with
  | none => rw [hf] at h; exact absurd h (by simp)
  | some t =>
    rw [hf] at h
    cases hu : ch.updated_at with
    | none => rfl
    | some v => rw [hu] at h; exact absurd h (by simp)

/-- Characterization of a successful patch: the re-read row is the found
row with the applicable changes applied (or unchanged when none apply),
and each outcome field is determined by that row. -/
theorem patch_ticket_ok_eq {store : List Ticket} {i : Nat} {ch : TicketUpdate}
    {now : Int} {t : Ticket} (h : findTicket store i = some t)
    (hu : ch.updated_at = none) :
    patch_ticket store i ch now =
      .ok { store := if hasApplicable ch then
              updateStore store i (fun u => applyChanges u ch now) else store
            result := if hasApplicable ch then applyChanges t ch now else t
            screenshots := patchScreenshots
              (if hasApplicable ch then applyChanges t ch now else t).screenshot
            submitted_by_name :=
              (if hasApplicable ch then applyChanges t ch now else t).submitted_by
            notified :=
              if (if hasApplicable ch then applyChanges t ch now else t).status
                    = "Resolved"
                 || (if hasApplicable ch then applyChanges t ch now else t).status
                    = "Closed" then
                some (if hasApplicable ch then applyChanges t ch now else t).submitted_by
              else none } := by
  unfold patch_ticket
  rw [h, hu]
  by_cases ha : hasApplicable ch
  · have hfind : findTicket (updateStore store i (fun u => applyChanges u ch now)) i
        = some (applyChanges t ch now) := by
      rw [findTicket_updateStore store i (fun u => applyChanges u ch now)
        (fun u => rfl), h]
      rfl
    simp [ha, hfind, rawSubmittedByName]
  · simp [ha, h, rawSubmittedByName]

theorem mem_insertDesc {a t : Ticket} {l : List Ticket} :
    a ∈ insertDesc t l ↔ a = t ∨ a ∈ l := by
  induction l with
  | nil => simp [insertDesc]
  | cons x xs ih =>
    by_cases hx : x.created_at ≤ t.created_at
    · simp [insertDesc, hx]
    · simp [insertDesc, hx, ih]
      tauto

theorem mem_sortDesc {a : Ticket} {l : List Ticket} : a ∈ sortDesc l ↔ a ∈ l := by
  induction l with
  | nil => simp [sortDesc]
  | cons x xs ih => simp [sortDesc, mem_insertDesc, ih]

theorem pairwise_insertDesc {t : Ticket} {l : List Ticket}
    (h : l.Pairwise (fun a b => b.created_at ≤ a.created_at)) :
    (insertDesc t l).Pairwise (fun a b => b.created_at ≤ a.created_at) := by
  induction l with
  | nil => simp [insertDesc]
  | cons x xs ih =>
    rcases List.pairwise_cons.mp h with ⟨hx, hxs⟩
    by_cases hle : x.created_at ≤ t.created_at
    · simp only [insertDesc, hle, if_true]
      refine List.pairwise_cons.mpr ⟨?_, h⟩
      intro b hb
      rcases List.mem_cons.mp hb with rfl | hb
      · exact hle
      · exact le_trans (hx b hb) hle
    · simp only [insertDesc, hle, if_false]
      refine List.pairwise_cons.mpr ⟨?_, ih hxs⟩
      intro b hb
      rcases mem_insertDesc.mp hb with rfl | hb
      · exact le_of_not_le hle
      · exact hx b hb

theorem pairwise_sortDesc (l : List Ticket) :
    (sortDesc l).Pairwise (fun a b => b.created_at ≤ a.created_at) := by
  induction l with
  | nil => simp [sortDesc]
  | cons x xs ih => exact pairwise_insertDesc ih

theorem perm_insertDesc (t : Ticket) (l : List Ticket) :
    (insertDesc t l).Perm (t :: l) := by
  induction l with
  | nil => exact List.Perm.refl _
  | cons x xs ih =>
    by_cases hle : x.created_at ≤ t.created_at
    · simp only [insertDesc, hle, if_true]
      exact List.Perm.refl _
    · simp only [insertDesc, hle, if_false]
      exact (ih.cons x).trans (List.Perm.swap t x xs)

theorem perm_sortDesc (l : List Ticket) : (sortDesc l).Perm l := by
  induction l with
  | nil => exact List.Perm.refl _
  | cons x xs ih => exact (perm_insertDesc x (sortDesc xs)).trans (ih.cons x)

theorem patch_ticket_find_of_ok {store : List Ticket} {i : Nat}
    {ch : TicketUpdate} {now : Int} {o : PatchOutcome}
    (h : patch_ticket store i ch now = .ok o) :
    ∃ t, findTicket store i = some t := by
  unfold patch_ticket at h
  cases hf : findTicket store i with
  | none => rw [hf] at h; exact absurd h (by simp)
  | some t => exact ⟨t, rfl⟩

theorem patch_ticket_name_eq {store : List Ticket} {i : Nat} {ch : TicketUpdate}
    {now : Int} {o : PatchOutcome} (h : patch_ticket store i ch now = .ok o) :
    o.submitted_by_name = o.result.submitted_by := by
  obtain ⟨t, hf⟩ := patch_ticket_find_of_ok h
  have hu := patch_ticket_updated_at_none h
  rw [patch_ticket_ok_eq hf hu] at h
  replace h := Except.ok.inj h
  subst h
  rfl

theorem get_ticket_name_eq {store : List Ticket} {i : Nat}
    {g : Ticket × String × JVal} (h : get_ticket store i = .ok g) :
    g.2.1 = g.1.submitted_by := by
  unfold get_ticket at h
  split at h
  · exact absurd h (by simp)
  · split at h
    · exact absurd h (by simp)
    · replace h := Except.ok.inj h
      subst h
      rfl

/-! ### Claims -/

/-- C1 counterexample: patching only the priority of a ticket whose
status is already Resolved schedules a status notification although the
applied change set contains no status entry, refuting the claimed iff. -/
theorem c1_counterexample :
    (patch_ticket [{ sampleTicket with status := "Resolved" }] 1
        { priority := some "High" } 50).map PatchOutcome.notified
      = .ok (some "amy@msi.com")
    ∧ ({ priority := some "High" } : TicketUpdate).status = none :=
  ⟨rfl, rfl⟩

/-- C1 (amended): for every successful patch of an existing ticket, a
status notification to submitted_by is scheduled iff the resulting status
(the status of the change set when present, the pre-existing status
otherwise) is Resolved or Closed; the notifier inspects the re-read row,
not the diff. -/
theorem c1_patch_notification {store : List Ticket} {i : Nat}
    {ch : TicketUpdate} {now : Int} {t : Ticket} {o : PatchOutcome}
    (hfind : findTicket store i = some t)
    (hok : patch_ticket store i ch now = .ok o) :
    o.notified =
      if (ch.status.getD t.status = "Resolved"
          || ch.status.getD t.status = "Closed") then
        some t.submitted_by
      else none := by
  have hu := patch_ticket_updated_at_none hok
  rw [patch_ticket_ok_eq hfind hu] at hok
  replace hok := Except.ok.inj hok
  subst hok
  by_cases ha : hasApplicable ch = true
  · simp [ha, applyChanges]
  · rw [Bool.not_eq_true] at ha
    have hst := (hasApplicable_false_parts ha).2.2.1
    simp [ha, hst]

/-- C1 witness: patching the sample ticket with status Resolved schedules
a notification to its submitter. -/
theorem c1_witness :
    (patch_ticket [sampleTicket] 1 { status := some "Resolved" } 50).map
      PatchOutcome.notified = .ok (some "amy@msi.com") := by
  have hfind : findTicket [sampleTicket] 1 = some sampleTicket := rfl
  cases hE : patch_ticket [sampleTicket] 1 { status := some "Resolved" } 50 with
  | error e =>
    rw [patch_ticket_ok_eq hfind rfl] at hE
    exact absurd hE (by simp)
  | ok o =>
    have hn := c1_patch_notification hfind hE
    rw [Except.map, hn]
    rfl

/-- C2 counterexample: on a stored screenshot value that is not valid
JSON, the get path raises (a decode error) instead of producing [], and
the list path produces the wrapped raw string instead of []. -/
theorem c2_counterexample :
    get_ticket [{ sampleTicket with screenshot := some "oops" }] 1
        = .error .decodeError
    ∧ listScreenshots (some "oops") = [JVal.str "oops"] :=
  ⟨rfl, rfl⟩

/-- C2 (amended): screenshot decoding is path-dependent.  The patch path
never fails: empty or absent gives [], a parsed non-list is wrapped, a
parse failure gives [].  The list path never fails: empty or absent gives
[], a parsed non-list is wrapped, but a parse failure yields the raw
string wrapped in a list.  The get path maps empty or absent to [] yet
propagates a parse failure as an error and never wraps non-list values. -/
theorem c2_screenshot_decode :
    (patchScreenshots none = [] ∧ patchScreenshots (some "") = []) ∧
    (∀ s xs, jsonParse s = some (JVal.arr xs) →
      patchScreenshots (some s) = xs ∧ listScreenshots (some s) = xs) ∧
    (∀ s v, jsonParse s = some v → (∀ xs, ¬ v = JVal.arr xs) →
      patchScreenshots (some s) = [v] ∧ listScreenshots (some s) = [v]) ∧
    (∀ s, ¬ s = "" → jsonParse s = none → patchScreenshots (some s) = []) ∧
    (listScreenshots none = [] ∧ listScreenshots (some "") = []) ∧
    (∀ s, ¬ s = "" → jsonParse s = none →
      listScreenshots (some s) = [JVal.str s]) ∧
    (getScreenshots none = some (JVal.arr []) ∧
      getScreenshots (some "") = some (JVal.arr [])) ∧
    (∀ s, ¬ s = "" → jsonParse s = none → getScreenshots (some s) = none) ∧
    (∀ s v, jsonParse s = some v → ¬ s = "" → getScreenshots (some s) = some v) := by
  have hemp : jsonParse "" = none := rfl
  refine ⟨⟨rfl, rfl⟩, ?_, ?_, ?_, ⟨rfl, rfl⟩, ?_, ⟨rfl, rfl⟩, ?_, ?_⟩
  · intro s xs hs
    by_cases he : s = ""
    · subst he; rw [hemp] at hs; exact absurd hs (by simp)
    · constructor <;> simp [patchScreenshots, listScreenshots, he, hs]
  · intro s v hs hv
    by_cases he : s = ""
    · subst he; rw [hemp] at hs; exact absurd hs (by simp)
    · cases v with
      | arr xs => exact absurd rfl (hv xs)
      | null => constructor <;> simp [patchScreenshots, listScreenshots, he, hs]
      | bool b => constructor <;> simp [patchScreenshots, listScreenshots, he, hs]
      | num n => constructor <;> simp [patchScreenshots, listScreenshots, he, hs]
      | str s₂ => constructor <;> simp [patchScreenshots, listScreenshots, he, hs]
  · intro s he hs
    simp [patchScreenshots, he, hs]
  · intro s he hs
    simp [listScreenshots, he, hs]
  · intro s he hs
    simp [getScreenshots, he, hs]
  · intro s v hs he
    simp [getScreenshots, he, hs]

/-- C2 witness: concrete decodes on each path: a JSON array of two URLs,
a bare JSON string, and a malformed value. -/
theorem c2_witness :
    patchScreenshots (some "[\"u1\",\"u2\"]") = [JVal.str "u1", JVal.str "u2"]
    ∧ listScreenshots (some "u1") = [JVal.str "u1"]
    ∧ getScreenshots (some "nope") = none := by
  obtain ⟨-, harr, -, -, -, hlist, -, hget, -⟩ := c2_screenshot_decode
  refine ⟨(harr "[\"u1\",\"u2\"]" [JVal.str "u1", JVal.str "u2"] rfl).1, ?_, ?_⟩
  · exact hlist "u1" (by decide) rfl
  · exact hget "nope" (by decide) rfl

/-- C3 counterexample: a patch that sets only the priority carries a null
updated_at entry, yet the stored updated_at changes from 5 to the patch
instant 99, so not every absent or null field is left unchanged. -/
theorem c3_counterexample :
    ({ priority := some "High" } : TicketUpdate).updated_at = none
    ∧ sampleTicket.updated_at = 5
    ∧ (patch_ticket [sampleTicket] 1 { priority := some "High" } 99).map
        (fun o => o.result.updated_at) = .ok 99 :=
  ⟨rfl, rfl, rfl⟩

/-- C3 (amended): in every successful patch of an existing ticket, each
content field whose change-set entry is absent or null keeps its prior
stored value (title, description, status, priority, assigned_to,
archived); updated_at alone is exempt, being stamped whenever at least
one field applies. -/
theorem c3_null_fields_untouched {store : List Ticket} {i : Nat}
    {ch : TicketUpdate} {now : Int} {t : Ticket} {o : PatchOutcome}
    (hfind : findTicket store i = some t)
    (hok : patch_ticket store i ch now = .ok o) :
    (ch.title = none → o.result.title = t.title) ∧
    (ch.description = none → o.result.description = t.description) ∧
    (ch.status = none → o.result.status = t.status) ∧
    (ch.priority = none → o.result.priority = t.priority) ∧
    (ch.assigned_to = none → o.result.assigned_to = t.assigned_to) ∧
    (ch.archived = none → o.result.archived = t.archived) := by
  have hu := patch_ticket_updated_at_none hok
  rw [patch_ticket_ok_eq hfind hu] at hok
  replace hok := Except.ok.inj hok
  subst hok
  refine ⟨fun h => ?_, fun h => ?_, fun h => ?_, fun h => ?_, fun h => ?_,
    fun h => ?_⟩ <;>
  · by_cases ha : hasApplicable ch = true <;> simp [ha, applyChanges, h]

/-- C3 witness: a patch of the sample ticket that sets only the status
leaves the priority at Medium. -/
theorem c3_witness :
    (patch_ticket [sampleTicket] 1 { status := some "In Progress" } 50).map
      (fun o => o.result.priority) = .ok "Medium" := by
  have hfind : findTicket [sampleTicket] 1 = some sampleTicket := rfl
  cases hE : patch_ticket [sampleTicket] 1 { status := some "In Progress" } 50 with
  | error e =>
    rw [patch_ticket_ok_eq hfind rfl] at hE
    exact absurd hE (by simp)
  | ok o =>
    have hp := (c3_null_fields_untouched hfind hE).2.2.2.1 rfl
    rw [Except.map, hp]
    rfl

/-- C4 counterexample: an all-null patch of a ticket whose status is
already Closed has zero applicable fields yet schedules a notification,
refuting the no-side-effects part of the claim. -/
theorem c4_counterexample :
    hasApplicable {} = false
    ∧ (patch_ticket [{ sampleTicket with status := "Closed" }] 1 {} 50).map
        PatchOutcome.notified = .ok (some "amy@msi.com") :=
  ⟨rfl, rfl⟩

/-- C4 (amended): a patch of an existing ticket whose change set yields
zero applicable fields leaves the store untouched and returns the
unmodified record with updated_at not bumped, but a notification is still
scheduled exactly when the current status is already Resolved or Closed,
because the notifier inspects the re-read row rather than the diff. -/
theorem c4_noop_patch {store : List Ticket} {i : Nat} {ch : TicketUpdate}
    {now : Int} {t : Ticket} {o : PatchOutcome}
    (hfind : findTicket store i = some t)
    (hempty : hasApplicable ch = false)
    (hok : patch_ticket store i ch now = .ok o) :
    o.store = store ∧ o.result = t ∧
      o.notified = if (t.status = "Resolved" || t.status = "Closed")
        then some t.submitted_by else none := by
  have hu := (hasApplicable_false_parts hempty).2.2.2.2.1
  rw [patch_ticket_ok_eq hfind hu] at hok
  replace hok := Except.ok.inj hok
  subst hok
  simp [hempty]

/-- C4 witness: an all-null patch of the sample ticket (status Open)
keeps the store, the row and updated_at unchanged and notifies nobody. -/
theorem c4_witness :
    (patch_ticket [sampleTicket] 1 {} 50).map
      (fun o => (o.store, o.result, o.notified))
      = .ok ([sampleTicket], sampleTicket, none) := by
  have hfind : findTicket [sampleTicket] 1 = some sampleTicket := rfl
  cases hE : patch_ticket [sampleTicket] 1 {} 50 with
  | error e =>
    rw [patch_ticket_ok_eq hfind rfl] at hE
    exact absurd hE (by simp)
  | ok o =>
    obtain ⟨h₁, h₂, h₃⟩ := c4_noop_patch hfind (by rfl) hE
    rw [Except.map, h₁, h₂, h₃]
    rfl

/-- C5 counterexample: the cancel route succeeds on the sample ticket yet
its updated_at keeps its old value, so the cancel mutation does not
refresh updated_at to the current time (the cancel path reads no clock at
all). -/
theorem c5_counterexample :
    cancel_ticket [sampleTicket] 1
        = .ok [{ sampleTicket with archived := true, status := "Canceled" }]
    ∧ ({ sampleTicket with archived := true, status := "Canceled" } : Ticket).updated_at
        = sampleTicket.updated_at
    ∧ sampleTicket.updated_at = 5 :=
  ⟨rfl, rfl, rfl⟩

/-- C5 (amended): a successful patch with at least one applicable field
and the completed toggle stamp updated_at = now while preserving
created_at, so updated_at ≥ created_at holds whenever now ≥ created_at;
the cancel/archive mutation leaves both timestamps unchanged (preserving
but not refreshing the invariant). -/
theorem c5_updated_at_refresh (store : List Ticket) (i : Nat)
    (ch : TicketUpdate) (now : Int) (t : Ticket) (o : PatchOutcome)
    (tasks : List Task) (j : Nat) (b : Bool) (tk : Task)
    (pr : List Task × Task) :
    (findTicket store i = some t → hasApplicable ch = true →
      patch_ticket store i ch now = .ok o →
      o.result.updated_at = now ∧ o.result.created_at = t.created_at ∧
        (t.created_at ≤ now → o.result.created_at ≤ o.result.updated_at)) ∧
    (findTask tasks j = some tk → set_task_completed tasks j b now = .ok pr →
      pr.2.updated_at = now ∧ pr.2.created_at = tk.created_at ∧
        (tk.created_at ≤ now → pr.2.created_at ≤ pr.2.updated_at)) ∧
    ((archiveApply t).updated_at = t.updated_at ∧
      (archiveApply t).created_at = t.created_at ∧
      (t.created_at ≤ t.updated_at →
        (archiveApply t).created_at ≤ (archiveApply t).updated_at)) := by
  refine ⟨fun hf ha hok => ?_, fun hf hok => ?_, rfl, rfl, fun h => h⟩
  · have hu := patch_ticket_updated_at_none hok
    rw [patch_ticket_ok_eq hf hu] at hok
    replace hok := Except.ok.inj hok
    subst hok
    refine ⟨by simp [ha, applyChanges], by simp [ha, applyChanges], fun hle => ?_⟩
    simpa [ha, applyChanges] using hle
  · unfold set_task_completed at hok
    rw [hf] at hok
    replace hok := Except.ok.inj hok
    subst hok
    exact ⟨rfl, rfl, fun h => h⟩

/-- C5 witness: patching the priority of the sample ticket at instant 50
stamps updated_at = 50; toggling the sample task at instant 50 stamps
updated_at = 50; archiving the sample ticket keeps updated_at = 5. -/
theorem c5_witness :
    (patch_ticket [sampleTicket] 1 { priority := some "High" } 50).map
        (fun o => o.result.updated_at) = .ok 50
    ∧ (set_task_completed [sampleTask] 7 true 50).map (fun p => p.2.updated_at)
        = .ok 50
    ∧ (archiveApply sampleTicket).updated_at = 5 := by
  have hfind : findTicket [sampleTicket] 1 = some sampleTicket := rfl
  have hfindT : findTask [sampleTask] 7 = some sampleTask := rfl
  refine ⟨?_, ?_, ?_⟩
  · cases hE : patch_ticket [sampleTicket] 1 { priority := some "High" } 50 with
    | error e =>
      rw [patch_ticket_ok_eq hfind rfl] at hE
      exact absurd hE (by simp)
    | ok o =>
      have h := (c5_updated_at_refresh [sampleTicket] 1 { priority := some "High" }
        50 sampleTicket o [sampleTask] 7 true sampleTask ([], sampleTask)).1
        hfind (by rfl) hE
      rw [Except.map, h.1]
  · cases hE : set_task_completed [sampleTask] 7 true 50 with
    | error e =>
      unfold set_task_completed at hE
      rw [hfindT] at hE
      exact absurd hE (by simp)
    | ok pr =>
      have h := (c5_updated_at_refresh [sampleTicket] 1 { priority := some "High" }
        50 sampleTicket ⟨[], sampleTicket, [], "", none⟩ [sampleTask] 7 true
        sampleTask pr).2.1 hfindT hE
      rw [Except.map, h.1]
  · exact ((c5_updated_at_refresh [] 0 {} 0 sampleTicket
      ⟨[], sampleTicket, [], "", none⟩ [] 0 false sampleTask
      ([], sampleTask)).2.2.1).trans rfl

/-- C6 counterexample: on the list path, when no user record matches the
submitter email, submitted_by_name falls back to the empty string, not to
the raw email. -/
theorem c6_counterexample :
    listSubmittedByName [] sampleTicket = ""
    ∧ sampleTicket.submitted_by = "amy@msi.com"
    ∧ ¬ (("" : String) = "amy@msi.com") :=
  ⟨rfl, rfl, by decide⟩

/-- C6 (amended): the list path resolves submitted_by_name from the
joined user profile, falling back to the empty string when no user
matches; the get and patch paths always use the raw submitted_by email
with no lookup; no path can fail on a missing user. -/
theorem c6_submitted_by_name (users : List User) (t : Ticket)
    (store : List Ticket) (i : Nat) (ch : TicketUpdate) (now : Int)
    (o : PatchOutcome) (g : Ticket × String × JVal) :
    (users.find? (fun u => u.email = t.submitted_by) = none →
      listSubmittedByName users t = "") ∧
    (∀ u, users.find? (fun v => v.email = t.submitted_by) = some u →
      listSubmittedByName users t = pyStrip (u.first_name ++ " " ++ u.last_name)) ∧
    rawSubmittedByName t = t.submitted_by ∧
    (patch_ticket store i ch now = .ok o →
      o.submitted_by_name = o.result.submitted_by) ∧
    (get_ticket store i = .ok g → g.2.1 = g.1.submitted_by) := by
  refine ⟨fun h => ?_, fun u h => ?_, rfl, fun h => patch_ticket_name_eq h,
    fun h => get_ticket_name_eq h⟩
  · simp only [listSubmittedByName, h]
    rfl
  · simp only [listSubmittedByName, h]

/-- C6 witness: with a non-matching user on file the list path projects
the empty string; with a matching user it projects the profile name; the
raw paths project the email. -/
theorem c6_witness :
    listSubmittedByName [sampleUser] sampleTicket = ""
    ∧ listSubmittedByName [{ sampleUser with email := "amy@msi.com" }]
        sampleTicket = "Zed Quill"
    ∧ rawSubmittedByName sampleTicket = "amy@msi.com" := by
  have h₁ := (c6_submitted_by_name [sampleUser] sampleTicket [] 0 {} 0
    ⟨[], sampleTicket, [], "", none⟩ (sampleTicket, "", JVal.null)).1 rfl
  have h₂ := (c6_submitted_by_name [{ sampleUser with email := "amy@msi.com" }]
    sampleTicket [] 0 {} 0 ⟨[], sampleTicket, [], "", none⟩
    (sampleTicket, "", JVal.null)).2.1 { sampleUser with email := "amy@msi.com" }
    rfl
  exact ⟨h₁, h₂.trans rfl, rfl⟩

/-- C7 counterexample: two active tickets share created_at = 3, with the
sample ticket inserted first; the output listing the id-2 sibling first
is an admissible result of the query (a permutation of the selected rows,
sorted by created_at descending), yet it is not the insertion order, so
the query does not guarantee the claimed tie-break. -/
theorem c7_counterexample :
    listTicketsAdmissible [sampleTicket, { sampleTicket with id := 2 }] none false
        [{ sampleTicket with id := 2 }, sampleTicket]
    ∧ ({ sampleTicket with id := 2 } : Ticket).created_at = sampleTicket.created_at
    ∧ ¬ (([{ sampleTicket with id := 2 }, sampleTicket] : List Ticket)
          = [sampleTicket, { sampleTicket with id := 2 }]) := by
  refine ⟨⟨?_, by decide⟩, rfl, by decide⟩
  have hf : ([sampleTicket, { sampleTicket with id := 2 }] : List Ticket).filter
      (ticketMatches none false) = [sampleTicket, { sampleTicket with id := 2 }] :=
    rfl
  rw [hf]
  exact List.Perm.swap sampleTicket { sampleTicket with id := 2 } []

/-- C7 (amended): every admissible result of the list_tickets query (the
WHERE filter followed by ORDER BY created_at DESC, whose equal-key order
the database leaves unspecified) contains with the default filter exactly
the rows with archived = false and with archived true exactly the
archived ones, narrows to exact submitted_by matches for a nonempty
user_email, and is ordered by created_at descending; rows with equal
created_at carry no guaranteed relative order.  The executable model is
one admissible result. -/
theorem c7_list_tickets_admissible :
    (∀ (store : List Ticket) (arch : Bool) (out : List Ticket) (t : Ticket),
      listTicketsAdmissible store none arch out →
      (t ∈ out ↔ t ∈ store ∧ t.archived = arch)) ∧
    (∀ (store : List Ticket) (arch : Bool) (e : String) (out : List Ticket)
      (t : Ticket), ¬ e = "" → listTicketsAdmissible store (some e) arch out →
      (t ∈ out ↔ t ∈ store ∧ t.archived = arch ∧ t.submitted_by = e)) ∧
    (∀ (store : List Ticket) (ue : Option String) (arch : Bool)
      (out : List Ticket), listTicketsAdmissible store ue arch out →
      out.Pairwise (fun a b => b.created_at ≤ a.created_at)) ∧
    (∀ (store : List Ticket) (ue : Option String) (arch : Bool),
      listTicketsAdmissible store ue arch (list_tickets store ue arch)) := by
  refine ⟨?_, ?_, fun store ue arch out h => h.2, ?_⟩
  · intro store arch out t h
    rw [h.1.mem_iff, List.mem_filter]
    simp [ticketMatches]
  · intro store arch e out t hne h
    rw [h.1.mem_iff, List.mem_filter]
    simp [ticketMatches, hne, and_assoc]
  · intro store ue arch
    exact ⟨perm_sortDesc _, pairwise_sortDesc _⟩

/-- C7 witness: the executable model is an admissible result on a
concrete store, and through the contract the default listing contains the
active sample ticket, excludes an archived sibling, and the user_email
filter admits the sample ticket for its exact submitter. -/
theorem c7_witness :
    sampleTicket ∈ list_tickets
        [sampleTicket, { sampleTicket with id := 3, archived := true }] none false
    ∧ ¬ ({ sampleTicket with id := 3, archived := true } : Ticket)
        ∈ list_tickets
          [sampleTicket, { sampleTicket with id := 3, archived := true }] none false
    ∧ sampleTicket ∈ list_tickets [sampleTicket] (some "amy@msi.com") false := by
  obtain ⟨h₁, h₂, -, hok⟩ := c7_list_tickets_admissible
  refine ⟨?_, ?_, ?_⟩
  · exact (h₁ _ false _ sampleTicket (hok _ none false)).mpr ⟨by simp, rfl⟩
  · intro hmem
    have h := ((h₁ _ false _ _ (hok _ none false)).mp hmem).2
    exact absurd h (by decide)
  · exact (h₂ [sampleTicket] false "amy@msi.com" _ sampleTicket (by decide)
      (hok _ (some "amy@msi.com") false)).mpr ⟨by simp, rfl, rfl⟩

/-- C8: ticket creation (modelled from the spec, the route being absent
from the sources) and task creation stamp created_at and updated_at from
a single shared now value, hence the two fields are equal on every
created record. -/
theorem c8_creation_timestamps (task_id : Nat) (text : String)
    (completed : Bool) (priority : String)
    (assigned_to screenshot_url : Option String) (user_email : String)
    (now : Int) (ticket_id : Nat) (title description submitted_by : String)
    (cc_email : Option String) (status tpriority : String)
    (location screenshot : Option String) :
    ((create_task task_id text completed priority assigned_to screenshot_url
        user_email now).created_at
      = (create_task task_id text completed priority assigned_to
        screenshot_url user_email now).updated_at)
    ∧ ((create_ticket_spec ticket_id title description submitted_by cc_email
        status tpriority location screenshot now).created_at
      = (create_ticket_spec ticket_id title description submitted_by cc_email
        status tpriority location screenshot now).updated_at) :=
  ⟨rfl, rfl⟩

/-- C9: cancelling an existing ticket archives it and overwrites status
with the literal Canceled, leaves every other column (updated_at
included) unchanged, retains the row (soft delete), and leaves rows with
other ids untouched. -/
theorem c9_cancel_frame (store : List Ticket) (i : Nat) (t : Ticket)
    (hfind : findTicket store i = some t) :
    (archive_ticket_in_db store i).2 = true ∧
    cancel_ticket store i = .ok (archive_ticket_in_db store i).1 ∧
    findTicket (archive_ticket_in_db store i).1 i = some (archiveApply t) ∧
    (archive_ticket_in_db store i).1.length = store.length ∧
    (archiveApply t).archived = true ∧
    (archiveApply t).status = "Canceled" ∧
    (archiveApply t).id = t.id ∧
    (archiveApply t).title = t.title ∧
    (archiveApply t).description = t.description ∧
    (archiveApply t).submitted_by = t.submitted_by ∧
    (archiveApply t).cc_email = t.cc_email ∧
    (archiveApply t).priority = t.priority ∧
    (archiveApply t).location = t.location ∧
    (archiveApply t).assigned_to = t.assigned_to ∧
    (archiveApply t).created_at = t.created_at ∧
    (archiveApply t).updated_at = t.updated_at ∧
    (archiveApply t).screenshot = t.screenshot ∧
    (∀ u ∈ store, ¬ u.id = i → u ∈ (archive_ticket_in_db store i).1) := by
  have hmem : t ∈ store := List.mem_of_find?_eq_some hfind
  have hpred := List.find?_some hfind
  have hany : (store.any (fun u => u.id = i)) = true :=
    List.any_eq_true.mpr ⟨t, hmem, hpred⟩
  refine ⟨hany, ?_, ?_, by simp [archive_ticket_in_db], rfl, rfl, rfl, rfl,
    rfl, rfl, rfl, rfl, rfl, rfl, rfl, rfl, rfl, ?_⟩
  · simp only [cancel_ticket, archive_ticket_in_db, hany, if_true]
  · show findTicket (updateStore store i archiveApply) i = some (archiveApply t)
    rw [findTicket_updateStore store i archiveApply (fun u => rfl), hfind]
    rfl
  · intro u hu hne
    exact List.mem_map.mpr ⟨u, hu, by simp [hne]⟩

/-- C9 witness: cancelling the sample ticket archives it, sets status to
Canceled, and keeps updated_at at 5. -/
theorem c9_witness :
    (archive_ticket_in_db [sampleTicket] 1).2 = true
    ∧ (archive_ticket_in_db [sampleTicket] 1).1
        = [{ sampleTicket with archived := true, status := "Canceled" }]
    ∧ (archiveApply sampleTicket).updated_at = 5 := by
  obtain ⟨h₁, -, -, -, -, -, -, -, -, -, -, -, -, -, -, hupd, -, -⟩ :=
    c9_cancel_frame [sampleTicket] 1 sampleTicket rfl
  exact ⟨h₁, rfl, hupd.trans rfl⟩

/-- C10: the task delete route always answers 204, with no existence
check, and deleting an id with no matching task leaves the store
unchanged. -/
theorem c10_delete_task (store : List Task) (j : Nat) :
    (delete_task store j).2 = 204 ∧
      (findTask store j = none → (delete_task store j).1 = store) := by
  refine ⟨rfl, fun h => ?_⟩
  have hall : ∀ u ∈ store, ¬ u.id = j := by
    intro u hu
    have hp := List.find?_eq_none.mp h u hu
    simpa using hp
  simp only [delete_task]
  refine List.filter_eq_self.mpr ?_
  intro u hu
  simpa using hall u hu

/-- C10 witness: deleting id 99 from a store holding only the sample task
(id 7) answers 204 and leaves the store unchanged. -/
theorem c10_witness :
    (delete_task [sampleTask] 99).2 = 204
    ∧ (delete_task [sampleTask] 99).1 = [sampleTask] := by
  obtain ⟨h₁, h₂⟩ := c10_delete_task [sampleTask] 99
  exact ⟨h₁, h₂ rfl⟩

end Ticketing
